import Mathlib

/-!
Verification of the OpenFSW-LEO-3U flight-software core.

This file gives a shallow embedding in Lean 4 of the parts of the OpenFSW
source that the checked properties are about:

* the CCSDS codec (`src/flight/comms/ccsds/ccsds.c`),
* the telecommand dispatcher (`src/flight/comms/telecommand.c`),
* the telemetry queue (`src/flight/comms/telemetry.c`),
* the mode manager (`src/flight/core/mode/mode_manager.c`),
* the cooperative scheduler (`src/flight/core/scheduler/scheduler.c`),
* the boot sequencer (`src/flight/boot/boot.c`),
* the time manager (`src/flight/core/time/time_manager.c`).

Machine integers are modelled as `Nat` with explicit masking (`&&& 0xFFFF`,
`% 2 ^ 32`, ...) exactly where the C types truncate.  Byte buffers are
`List Nat` (each element one byte).  Global mutable state becomes explicit
state records threaded through the functions.  C functions that take or
return pointers become functions returning pairs; NULL-pointer guards that
cannot arise in the typed model are noted in comments at the definition
they belong to.

The compilation targets of this repository (STM32F4, generic x86) are
little-endian, which matters once: `ccsds_finalize_tm` computes its CRC
over a `memcpy` of the packed header structs, i.e. over the little-endian
in-memory bytes, while `ccsds_serialize_tm` emits big-endian bytes.
-/

set_option maxRecDepth 100000

namespace OpenFSW

/-! ## Basic enumerations (src/flight/core/openfsw.h) -/

/-- `system_mode_t`: BOOT, SAFE, DETUMBLE, NOMINAL, LOW_POWER, RECOVERY. -/
inductive Mode where
  | boot | safe | detumble | nominal | low_power | recovery
deriving DecidableEq, Repr, Fintype

/-- Numeric value of a `system_mode_t` enumerator (MODE_BOOT = 0, ...). -/
def Mode.toNat : Mode → Nat
  | .boot => 0 | .safe => 1 | .detumble => 2
  | .nominal => 3 | .low_power => 4 | .recovery => 5

/-- Inverse of `Mode.toNat` on 0..5 (used where the C casts an integer that
was already checked to be `< MODE_COUNT` to `system_mode_t`). -/
def Mode.fromNat : Nat → Mode
  | 0 => .boot | 1 => .safe | 2 => .detumble
  | 3 => .nominal | 4 => .low_power | _ => .recovery

/-- `reset_cause_t`. -/
inductive ResetCause where
  | unknown | power_on | pin | watchdog | software | brown_out | low_power
deriving DecidableEq, Repr

/-- Numeric value of a `reset_cause_t` enumerator. -/
def ResetCause.toNat : ResetCause → Nat
  | .unknown => 0 | .power_on => 1 | .pin => 2 | .watchdog => 3
  | .software => 4 | .brown_out => 5 | .low_power => 6

/-- `openfsw_status_t`. -/
inductive Status where
  | ok | error | timeout | invalidParam | noMemory | busy | notReady
  | notFound | permission | crc | overflow | underflow | bus | hardware
deriving DecidableEq, Repr

/-- `tc_status_t` (src/flight/comms/telecommand.h). -/
inductive TcStatus where
  | accepted | rejectedAuth | rejectedInvalid | rejectedBusy
  | executed | failed | timeout
deriving DecidableEq, Repr

/-- Numeric value of a `tc_status_t` enumerator (TC_STATUS_ACCEPTED = 0, ...). -/
def TcStatus.toNat : TcStatus → Nat
  | .accepted => 0 | .rejectedAuth => 1 | .rejectedInvalid => 2
  | .rejectedBusy => 3 | .executed => 4 | .failed => 5 | .timeout => 6

/-! ## Time manager (src/flight/core/time/time_manager.c)

Only the parts reachable from the claims are embedded: the monotonic
timestamp, the uptime in milliseconds, and the UTC sync used by the
TimeSync telecommand handler. -/

/-- The `g_time` state of time_manager.c, restricted to the fields the
embedded functions read or write. -/
structure TimeState where
  boot_time_s : Nat
  boot_time_sub_ms : Nat
  utc_base_s : Nat
  utc_base_sub : Nat
  utc_sync_uptime : Nat
  utc_synced : Bool
deriving DecidableEq, Repr

/-- `time_manager_init`. -/
def time_manager_init : TimeState :=
  { boot_time_s := 0, boot_time_sub_ms := 0, utc_base_s := 0,
    utc_base_sub := 0, utc_sync_uptime := 0, utc_synced := false }

/-- `time_get_timestamp`: seconds = `boot_time_s`,
subseconds = `boot_time_sub_ms * 1000`. -/
def time_get_timestamp (t : TimeState) : Nat × Nat :=
  (t.boot_time_s, t.boot_time_sub_ms * 1000)

/-- `time_get_uptime_ms`.  Modelled from the spec: the function is declared
in time_manager.h but its definition is not among the files under src/;
the spec (§9) chooses "time based on monotonic ms from the OSAL", matching
`time_get_ms` of time_manager.c: `boot_time_s * 1000 + boot_time_sub_ms`
in `uint32_t` arithmetic. -/
def time_get_uptime_ms (t : TimeState) : Nat :=
  (t.boot_time_s * 1000 + t.boot_time_sub_ms) % 2 ^ 32

/-- `time_sync_utc` (aliased as `time_set_utc` in time_manager.h). -/
def time_sync_utc (t : TimeState) (secs sub : Nat) : TimeState :=
  { t with utc_base_s := secs, utc_base_sub := sub,
           utc_sync_uptime := t.boot_time_s, utc_synced := true }

/-! ## CCSDS codec (src/flight/comms/ccsds/ccsds.c) -/

/-- `APID_MAX` from the `ccsds_apid_t` enum. -/
def APID_MAX : Nat := 2047

/-- The 256-entry CRC-16-CCITT lookup table `crc_table` (transcribed from
the static constant in ccsds.c). -/
def crc_table : List Nat := [
  0x0000, 0x1021, 0x2042, 0x3063, 0x4084, 0x50A5, 0x60C6, 0x70E7,
  0x8108, 0x9129, 0xA14A, 0xB16B, 0xC18C, 0xD1AD, 0xE1CE, 0xF1EF,
  0x1231, 0x0210, 0x3273, 0x2252, 0x52B5, 0x4294, 0x72F7, 0x62D6,
  0x9339, 0x8318, 0xB37B, 0xA35A, 0xD3BD, 0xC39C, 0xF3FF, 0xE3DE,
  0x2462, 0x3443, 0x0420, 0x1401, 0x64E6, 0x74C7, 0x44A4, 0x5485,
  0xA56A, 0xB54B, 0x8528, 0x9509, 0xE5EE, 0xF5CF, 0xC5AC, 0xD58D,
  0x3653, 0x2672, 0x1611, 0x0630, 0x76D7, 0x66F6, 0x5695, 0x46B4,
  0xB75B, 0xA77A, 0x9719, 0x8738, 0xF7DF, 0xE7FE, 0xD79D, 0xC7BC,
  0x48C4, 0x58E5, 0x6886, 0x78A7, 0x0840, 0x1861, 0x2802, 0x3823,
  0xC9CC, 0xD9ED, 0xE98E, 0xF9AF, 0x8948, 0x9969, 0xA90A, 0xB92B,
  0x5AF5, 0x4AD4, 0x7AB7, 0x6A96, 0x1A71, 0x0A50, 0x3A33, 0x2A12,
  0xDBFD, 0xCBDC, 0xFBBF, 0xEB9E, 0x9B79, 0x8B58, 0xBB3B, 0xAB1A,
  0x6CA6, 0x7C87, 0x4CE4, 0x5CC5, 0x2C22, 0x3C03, 0x0C60, 0x1C41,
  0xEDAE, 0xFD8F, 0xCDEC, 0xDDCD, 0xAD2A, 0xBD0B, 0x8D68, 0x9D49,
  0x7E97, 0x6EB6, 0x5ED5, 0x4EF4, 0x3E13, 0x2E32, 0x1E51, 0x0E70,
  0xFF9F, 0xEFBE, 0xDFDD, 0xCFFC, 0xBF1B, 0xAF3A, 0x9F59, 0x8F78,
  0x9188, 0x81A9, 0xB1CA, 0xA1EB, 0xD10C, 0xC12D, 0xF14E, 0xE16F,
  0x1080, 0x00A1, 0x30C2, 0x20E3, 0x5004, 0x4025, 0x7046, 0x6067,
  0x83B9, 0x9398, 0xA3FB, 0xB3DA, 0xC33D, 0xD31C, 0xE37F, 0xF35E,
  0x02B1, 0x1290, 0x22F3, 0x32D2, 0x4235, 0x5214, 0x6277, 0x7256,
  0xB5EA, 0xA5CB, 0x95A8, 0x8589, 0xF56E, 0xE54F, 0xD52C, 0xC50D,
  0x34E2, 0x24C3, 0x14A0, 0x0481, 0x7466, 0x6447, 0x5424, 0x4405,
  0xA7DB, 0xB7FA, 0x8799, 0x97B8, 0xE75F, 0xF77E, 0xC71D, 0xD73C,
  0x26D3, 0x36F2, 0x0691, 0x16B0, 0x6657, 0x7676, 0x4615, 0x5634,
  0xD94C, 0xC96D, 0xF90E, 0xE92F, 0x99C8, 0x89E9, 0xB98A, 0xA9AB,
  0x5844, 0x4865, 0x7806, 0x6827, 0x18C0, 0x08E1, 0x3882, 0x28A3,
  0xCB7D, 0xDB5C, 0xEB3F, 0xFB1E, 0x8BF9, 0x9BD8, 0xABBB, 0xBB9A,
  0x4A75, 0x5A54, 0x6A37, 0x7A16, 0x0AF1, 0x1AD0, 0x2AB3, 0x3A92,
  0xFD2E, 0xED0F, 0xDD6C, 0xCD4D, 0xBDAA, 0xAD8B, 0x9DE8, 0x8DC9,
  0x7C26, 0x6C07, 0x5C64, 0x4C45, 0x3CA2, 0x2C83, 0x1CE0, 0x0CC1,
  0xEF1F, 0xFF3E, 0xCF5D, 0xDF7C, 0xAF9B, 0xBFBA, 0x8FD9, 0x9FF8,
  0x6E17, 0x7E36, 0x4E55, 0x5E74, 0x2E93, 0x3EB2, 0x0ED1, 0x1EF0]

/-- `ccsds_calc_crc`: CRC-16-CCITT over a byte buffer.  `crc` is a
`uint16_t`, hence the `&&& 0xFFFF` after the 8-bit shift. -/
def ccsds_calc_crc (data : List Nat) : Nat :=
  data.foldl
    (fun crc b =>
      ((crc <<< 8) &&& 0xFFFF) ^^^ crc_table.getD (((crc >>> 8) ^^^ b) &&& 0xFF) 0)
    0xFFFF

/-- The per-APID 14-bit sequence counters `g_ccsds.sequence_counts`,
modelled as a total map (the C array has entries 0..APID_MAX; other
indices are never accessed thanks to the guard in `ccsds_next_sequence`). -/
def SeqMap : Type := Nat → Nat

/-- `ccsds_init` zeroes the counters. -/
def ccsds_init_seqs : SeqMap := fun _ => 0

/-- `ccsds_next_sequence`: returns 0 (untouched state) for `apid > APID_MAX`;
otherwise returns the current counter and stores `(seq + 1) &&& 0x3FFF`. -/
def ccsds_next_sequence (s : SeqMap) (apid : Nat) : Nat × SeqMap :=
  if APID_MAX < apid then (0, s)
  else (s apid, fun a => if a = apid then (s apid + 1) &&& 0x3FFF else s a)

/-- `ccsds_primary_header_t` (packed, 6 bytes on the wire). -/
structure CcsdsPrimaryHeader where
  packet_id : Nat
  sequence_ctrl : Nat
  packet_length : Nat
deriving DecidableEq, Repr

/-- `ccsds_tm_secondary_header_t` (packed, 10 bytes). -/
structure CcsdsTmSecondaryHeader where
  coarse_time : Nat
  fine_time : Nat
  service_type : Nat
  service_subtype : Nat
  destination_id : Nat
  spare : Nat
deriving DecidableEq, Repr

/-- `ccsds_tc_secondary_header_t` (packed, 10 bytes). -/
structure CcsdsTcSecondaryHeader where
  service_type : Nat
  service_subtype : Nat
  source_id : Nat
  spare : Nat
  scheduled_time : Nat
  ack_flags : Nat
deriving DecidableEq, Repr

/-- `ccsds_tm_packet_t`.  The C struct carries `data[4078]` plus a separate
`data_length`; the model stores the used bytes as a list, whose length
plays the role of `data_length` (every write in the source keeps the two
in sync). -/
structure CcsdsTmPacket where
  primary : CcsdsPrimaryHeader
  secondary : CcsdsTmSecondaryHeader
  data : List Nat
  crc : Nat
deriving DecidableEq, Repr

/-- `ccsds_tc_packet_t`. -/
structure CcsdsTcPacket where
  primary : CcsdsPrimaryHeader
  secondary : CcsdsTcSecondaryHeader
  data : List Nat
  crc : Nat
deriving DecidableEq, Repr

/-- `CCSDS_MAX_PACKET_SIZE - CCSDS_PRIMARY_HDR_SIZE - CCSDS_SEC_HDR_SIZE - 2`:
capacity of the `data` array in both packet structs. -/
def CCSDS_MAX_DATA : Nat := 4096 - 6 - 10 - 2

/-- `ccsds_get_sequence`: `sequence_ctrl & 0x3FFF`. -/
def ccsds_get_sequence (h : CcsdsPrimaryHeader) : Nat :=
  h.sequence_ctrl &&& 0x3FFF

/-- `ccsds_get_apid`: `packet_id & 0x07FF`. -/
def ccsds_get_apid (h : CcsdsPrimaryHeader) : Nat :=
  h.packet_id &&& 0x07FF

/-- Big-endian wire bytes of the primary header, as written by
`ccsds_serialize_tm` (and by the explicit stores in `ccsds_validate_tc`). -/
def primary_bytes_be (h : CcsdsPrimaryHeader) : List Nat :=
  [(h.packet_id >>> 8) &&& 0xFF, h.packet_id &&& 0xFF,
   (h.sequence_ctrl >>> 8) &&& 0xFF, h.sequence_ctrl &&& 0xFF,
   (h.packet_length >>> 8) &&& 0xFF, h.packet_length &&& 0xFF]

/-- Big-endian wire bytes of the TM secondary header, as written by
`ccsds_serialize_tm`. -/
def tm_secondary_bytes_be (h : CcsdsTmSecondaryHeader) : List Nat :=
  [(h.coarse_time >>> 24) &&& 0xFF, (h.coarse_time >>> 16) &&& 0xFF,
   (h.coarse_time >>> 8) &&& 0xFF, h.coarse_time &&& 0xFF,
   (h.fine_time >>> 8) &&& 0xFF, h.fine_time &&& 0xFF,
   h.service_type &&& 0xFF, h.service_subtype &&& 0xFF,
   h.destination_id &&& 0xFF, h.spare &&& 0xFF]

/-- In-memory bytes of the packed primary header on the little-endian
compilation targets (STM32F4, x86): each `uint16_t` field is stored
low byte first.  This is what `memcpy(&temp[..], &pkt->primary, 6)` in
`ccsds_finalize_tm` copies. -/
def primary_bytes_le (h : CcsdsPrimaryHeader) : List Nat :=
  [h.packet_id &&& 0xFF, (h.packet_id >>> 8) &&& 0xFF,
   h.sequence_ctrl &&& 0xFF, (h.sequence_ctrl >>> 8) &&& 0xFF,
   h.packet_length &&& 0xFF, (h.packet_length >>> 8) &&& 0xFF]

/-- In-memory bytes of the packed TM secondary header on the little-endian
targets, as copied by `memcpy(&temp[..], &pkt->secondary, 10)` in
`ccsds_finalize_tm`. -/
def tm_secondary_bytes_le (h : CcsdsTmSecondaryHeader) : List Nat :=
  [h.coarse_time &&& 0xFF, (h.coarse_time >>> 8) &&& 0xFF,
   (h.coarse_time >>> 16) &&& 0xFF, (h.coarse_time >>> 24) &&& 0xFF,
   h.fine_time &&& 0xFF, (h.fine_time >>> 8) &&& 0xFF,
   h.service_type &&& 0xFF, h.service_subtype &&& 0xFF,
   h.destination_id &&& 0xFF, h.spare &&& 0xFF]

/-- `ccsds_build_tm_header`: zeroes the packet, fills the primary header
(version 0, type TM, secondary-header flag, APID), draws the next
sequence count, and stamps the secondary header from `time_get_timestamp`.
The NULL-packet guard of the C code cannot arise here. -/
def ccsds_build_tm_header (seqs : SeqMap) (t : TimeState)
    (apid service_type service_subtype : Nat) : CcsdsTmPacket × SeqMap :=
  let (seq, seqs') := ccsds_next_sequence seqs apid
  let (ts_s, ts_sub) := time_get_timestamp t
  ({ primary :=
      { packet_id := (0 <<< 13) ||| (0 <<< 12) ||| (1 <<< 11) ||| (apid &&& 0x07FF),
        sequence_ctrl := (3 <<< 14) ||| seq,
        packet_length := 0 },
     secondary :=
      { coarse_time := ts_s % 2 ^ 32,
        fine_time := ts_sub &&& 0xFFFF,
        service_type := service_type % 2 ^ 8,
        service_subtype := service_subtype % 2 ^ 8,
        destination_id := 0, spare := 0 },
     data := [], crc := 0 }, seqs')

/-- `ccsds_tm_set_data`.  The NULL guards cannot arise; the length check
against `sizeof(pkt->data)` is kept. -/
def ccsds_tm_set_data (pkt : CcsdsTmPacket) (data : List Nat) :
    Status × CcsdsTmPacket :=
  if CCSDS_MAX_DATA < data.length then (.overflow, pkt)
  else (.ok, { pkt with data := data })

/-- `ccsds_finalize_tm`: sets
`packet_length = CCSDS_SEC_HDR_SIZE + data_length + 2 - 1` and stores the
CRC computed over the `memcpy`-built temp buffer — i.e. over the
little-endian in-memory header bytes followed by the data. -/
def ccsds_finalize_tm (pkt : CcsdsTmPacket) : CcsdsTmPacket :=
  let primary' := { pkt.primary with
    packet_length := (10 + pkt.data.length + 2 - 1) % 2 ^ 16 }
  let temp := primary_bytes_le primary' ++
    tm_secondary_bytes_le pkt.secondary ++ pkt.data
  { pkt with primary := primary', crc := ccsds_calc_crc temp }

/-- `ccsds_tm_get_total_length`: 6 + 10 + data_length + 2. -/
def ccsds_tm_get_total_length (pkt : CcsdsTmPacket) : Nat :=
  6 + 10 + pkt.data.length + 2

/-- `ccsds_serialize_tm`: big-endian primary header, secondary header,
data, CRC.  Returns `none` when the output buffer (`max_len` bytes) is too
small, mirroring the 0 return of the C code. -/
def ccsds_serialize_tm (pkt : CcsdsTmPacket) (max_len : Nat) :
    Option (List Nat) :=
  if max_len < ccsds_tm_get_total_length pkt then none
  else some (primary_bytes_be pkt.primary ++ tm_secondary_bytes_be pkt.secondary ++
    pkt.data ++ [(pkt.crc >>> 8) &&& 0xFF, pkt.crc &&& 0xFF])

/-- The data length `ccsds_parse_tc` derives:
`packet_length + 1 - CCSDS_SEC_HDR_SIZE - 2` evaluated in C `int`
arithmetic and stored into a `uint16_t`, so a value of `packet_length`
below 11 wraps modulo 2^16. -/
def parse_tc_data_len (packet_length : Nat) : Nat :=
  (packet_length + 1 + 2 ^ 16 - 10 - 2) % 2 ^ 16

/-- `ccsds_parse_tc`.  The input buffer is a byte list; the C code reads
`raw[i]` without checking `i < len` beyond the initial 18-byte minimum, so
the model reads out-of-range indices as 0 (`List.getD`), standing for
whatever bytes follow the buffer in memory. -/
def ccsds_parse_tc (raw : List Nat) : Status × CcsdsTcPacket :=
  let zero : CcsdsTcPacket :=
    { primary := { packet_id := 0, sequence_ctrl := 0, packet_length := 0 },
      secondary := { service_type := 0, service_subtype := 0, source_id := 0,
                     spare := 0, scheduled_time := 0, ack_flags := 0 },
      data := [], crc := 0 }
  if raw.length < 6 + 10 + 2 then (.invalidParam, zero)
  else
    let b := fun i => raw.getD i 0
    let packet_length := (b 4 <<< 8) ||| b 5
    let data_len := parse_tc_data_len packet_length
    if CCSDS_MAX_DATA < data_len then (.overflow, zero)
    else
      (.ok,
       { primary :=
          { packet_id := (b 0 <<< 8) ||| b 1,
            sequence_ctrl := (b 2 <<< 8) ||| b 3,
            packet_length := packet_length },
         secondary :=
          { service_type := b 6, service_subtype := b 7,
            source_id := b 8, spare := b 9,
            scheduled_time := (b 10 <<< 24) ||| (b 11 <<< 16) ||| (b 12 <<< 8) ||| b 13,
            ack_flags := (b 14 <<< 8) ||| b 15 },
         data := (List.range data_len).map (fun i => b (16 + i)),
         crc := (b (16 + data_len) <<< 8) ||| b (16 + data_len + 1) })

/-- Number of input bytes `ccsds_parse_tc` actually consumes when it
succeeds: 16 header bytes, the derived data field, and the 2 CRC bytes. -/
def parse_tc_bytes_needed (packet_length : Nat) : Nat :=
  16 + parse_tc_data_len packet_length + 2

/-- The byte buffer `ccsds_validate_tc` rebuilds (explicit big-endian
stores) to check the CRC of a TC packet. -/
def tc_crc_bytes (pkt : CcsdsTcPacket) : List Nat :=
  [(pkt.primary.packet_id >>> 8) &&& 0xFF, pkt.primary.packet_id &&& 0xFF,
   (pkt.primary.sequence_ctrl >>> 8) &&& 0xFF, pkt.primary.sequence_ctrl &&& 0xFF,
   (pkt.primary.packet_length >>> 8) &&& 0xFF, pkt.primary.packet_length &&& 0xFF,
   pkt.secondary.service_type &&& 0xFF, pkt.secondary.service_subtype &&& 0xFF,
   pkt.secondary.source_id &&& 0xFF, pkt.secondary.spare &&& 0xFF,
   (pkt.secondary.scheduled_time >>> 24) &&& 0xFF,
   (pkt.secondary.scheduled_time >>> 16) &&& 0xFF,
   (pkt.secondary.scheduled_time >>> 8) &&& 0xFF,
   pkt.secondary.scheduled_time &&& 0xFF,
   (pkt.secondary.ack_flags >>> 8) &&& 0xFF, pkt.secondary.ack_flags &&& 0xFF] ++
  pkt.data

/-- `ccsds_validate_tc`: version must be 0, type must be TC, CRC must match. -/
def ccsds_validate_tc (pkt : CcsdsTcPacket) : Bool :=
  if pkt.primary.packet_id >>> 13 ≠ 0 then false
  else if (pkt.primary.packet_id >>> 12) &&& 0x01 ≠ 1 then false
  else ccsds_calc_crc (tc_crc_bytes pkt) = pkt.crc

/-! ## Mode manager (src/flight/core/mode/mode_manager.c) -/

/-- `mode_transition_t`. -/
structure ModeTransition where
  from_mode : Mode
  to_mode : Mode
  allowed : Bool
  condition : String
deriving DecidableEq, Repr

/-- The static `transition_rules` table, transcribed entry by entry. -/
def transition_rules : List ModeTransition := [
  ⟨.boot, .safe, true, "always"⟩,
  ⟨.boot, .detumble, true, "power_on"⟩,
  ⟨.boot, .recovery, true, "watchdog_reset"⟩,
  ⟨.boot, .low_power, true, "brownout"⟩,
  ⟨.safe, .detumble, true, "ground_cmd"⟩,
  ⟨.safe, .nominal, true, "ground_cmd"⟩,
  ⟨.safe, .low_power, true, "low_power"⟩,
  ⟨.detumble, .safe, true, "fdir"⟩,
  ⟨.detumble, .nominal, true, "detumble_complete"⟩,
  ⟨.detumble, .low_power, true, "low_power"⟩,
  ⟨.nominal, .safe, true, "fdir"⟩,
  ⟨.nominal, .detumble, true, "attitude_lost"⟩,
  ⟨.nominal, .low_power, true, "low_power"⟩,
  ⟨.nominal, .recovery, true, "fdir"⟩,
  ⟨.low_power, .safe, true, "fdir"⟩,
  ⟨.low_power, .nominal, true, "power_restored"⟩,
  ⟨.low_power, .detumble, true, "power_restored"⟩,
  ⟨.recovery, .safe, true, "recovery_failed"⟩,
  ⟨.recovery, .nominal, true, "recovery_success"⟩,
  ⟨.recovery, .detumble, true, "attitude_lost"⟩]

/-- A pair is in the static transition table when some rule carries it. -/
def in_transition_table (f t : Mode) : Bool :=
  transition_rules.any (fun r => r.from_mode = f ∧ r.to_mode = t)

/-- `mode_state_t`. -/
structure ModeState where
  current : Mode
  previous : Mode
  requested : Mode
  entry_time_s : Nat
  timeout_s : Nat
  transition_pending : Bool
  forced_override : Bool
deriving DecidableEq, Repr

/-- `get_mode_timeout`: DETUMBLE 1800 s, RECOVERY 3600 s, otherwise 0. -/
def get_mode_timeout : Mode → Nat
  | .detumble => 1800
  | .recovery => 3600
  | _ => 0

/-- `mode_manager_init`.  `now_s` stands for `osal_get_time_ms() / 1000`.
The entry callback is NULL at this point in the C code, so no callback
effect is modelled. -/
def mode_manager_init (initial : Mode) (now_s : Nat) : ModeState :=
  { current := initial, previous := .boot, requested := initial,
    entry_time_s := now_s, timeout_s := get_mode_timeout initial,
    transition_pending := false, forced_override := false }

/-- `mode_manager_can_transition`: self-transitions are refused, then the
first matching rule decides. -/
def mode_manager_can_transition (f t : Mode) : Bool :=
  if f = t then false
  else
    match transition_rules.find? (fun r => r.from_mode = f ∧ r.to_mode = t) with
    | some r => r.allowed
    | none => false

/-- `mode_manager_request`.  The `mode >= MODE_COUNT` guard of the C code
cannot arise for the inductive `Mode` type. -/
def mode_manager_request (mode : Mode) (s : ModeState) : Status × ModeState :=
  if mode_manager_can_transition s.current mode then
    (.ok, { s with requested := mode, transition_pending := true,
                   forced_override := false })
  else (.permission, s)

/-- `mode_manager_force`. -/
def mode_manager_force (mode : Mode) (s : ModeState) : ModeState :=
  { s with requested := mode, transition_pending := true, forced_override := true }

/-- `mode_manager_process`.  `now_s` is `osal_get_time_ms() / 1000`; entry
and exit callbacks are modelled as absent (both are NULL unless a caller
registers them, which no embedded flow does).  The `uint32_t` subtraction
`now - entry_time` is modelled with its wrap-around. -/
def mode_manager_process (now_s : Nat) (s : ModeState) : ModeState :=
  let s :=
    if 0 < s.timeout_s ∧ s.timeout_s ≤ (now_s + 2 ^ 32 - s.entry_time_s % 2 ^ 32) % 2 ^ 32 then
      { s with requested := .safe, transition_pending := true,
               forced_override := true }
    else s
  if s.transition_pending then
    { s with previous := s.current, current := s.requested,
             entry_time_s := now_s, timeout_s := get_mode_timeout s.requested,
             transition_pending := false, forced_override := false }
  else s

/-! ## Telemetry pipeline (src/flight/comms/telemetry.c) -/

/-- `tm_type_t`. -/
inductive TmType where
  | housekeeping | event | science | diagnostic
deriving DecidableEq, Repr

/-- `tm_priority_t` values; the C code compares them as plain integers
(`<`, `>=`), so they are modelled as the enumerator values. -/
def TM_PRIORITY_LOW : Nat := 0

/-- `TM_PRIORITY_NORMAL`. -/
def TM_PRIORITY_NORMAL : Nat := 1

/-- `TM_PRIORITY_HIGH`. -/
def TM_PRIORITY_HIGH : Nat := 2

/-- `TM_PRIORITY_CRITICAL`. -/
def TM_PRIORITY_CRITICAL : Nat := 3

/-- Identifier standing for a housekeeping generator function pointer. -/
inductive TmGenId where
  | sysHk | powerHk | adcsHk | commsHk
deriving DecidableEq, Repr

/-- `tm_definition_t`. -/
structure TmDefinition where
  packet_id : Nat
  apid : Nat
  ty : TmType
  priority : Nat
  period_ms : Nat
  last_sent_ms : Nat
  enabled : Bool
  generator : TmGenId
deriving DecidableEq, Repr

/-- `TM_MAX_DEFINITIONS`. -/
def TM_MAX_DEFINITIONS : Nat := 32

/-- `telemetry_register` on the definition table (list length plays the
role of `def_count`).  The NULL guard cannot arise. -/
def telemetry_register (defs : List TmDefinition) (d : TmDefinition) :
    Status × List TmDefinition :=
  if TM_MAX_DEFINITIONS ≤ defs.length then (.noMemory, defs)
  else if defs.any (fun e => e.packet_id = d.packet_id) then (.busy, defs)
  else (.ok, defs ++ [d])

/-- The four standard housekeeping definitions registered by
`telemetry_init` (APID_SYSTEM = 1, APID_POWER = 3, APID_ADCS = 4,
APID_COMMS = 5; TM_HK_DEFAULT_PERIOD = 1000). -/
def telemetry_init_defs : List TmDefinition :=
  let r := fun defs d => (telemetry_register defs d).2
  r (r (r (r []
    ⟨1, 1, .housekeeping, TM_PRIORITY_NORMAL, 1000, 0, true, .sysHk⟩)
    ⟨2, 3, .housekeeping, TM_PRIORITY_NORMAL, 1000, 0, true, .powerHk⟩)
    ⟨3, 4, .housekeeping, TM_PRIORITY_NORMAL, 1000, 0, true, .adcsHk⟩)
    ⟨4, 5, .housekeeping, TM_PRIORITY_NORMAL, 5000, 0, true, .commsHk⟩

/-- `find_definition`: index of the first definition with the packet id. -/
def find_definition (defs : List TmDefinition) (packet_id : Nat) : Option Nat :=
  defs.findIdx? (fun e => e.packet_id = packet_id)

/-- `telemetry_enable`. -/
def telemetry_enable (defs : List TmDefinition) (packet_id : Nat) :
    Status × List TmDefinition :=
  match find_definition defs packet_id with
  | none => (.notFound, defs)
  | some i =>
    match defs.get? i with
    | none => (.notFound, defs)
    | some d => (.ok, defs.set i { d with enabled := true })

/-- `telemetry_disable`. -/
def telemetry_disable (defs : List TmDefinition) (packet_id : Nat) :
    Status × List TmDefinition :=
  match find_definition defs packet_id with
  | none => (.notFound, defs)
  | some i =>
    match defs.get? i with
    | none => (.notFound, defs)
    | some d => (.ok, defs.set i { d with enabled := false })

/-- `tm_queue_entry_t`. -/
structure TmQueueEntry where
  packet : CcsdsTmPacket
  priority : Nat
  valid : Bool
deriving DecidableEq, Repr

/-- The zeroed queue entry `memset` leaves behind in `telemetry_init`. -/
def tm_queue_zero_entry : TmQueueEntry :=
  { packet :=
     { primary := { packet_id := 0, sequence_ctrl := 0, packet_length := 0 },
       secondary := { coarse_time := 0, fine_time := 0, service_type := 0,
                      service_subtype := 0, destination_id := 0, spare := 0 },
       data := [], crc := 0 },
    priority := 0, valid := false }

/-- `TM_QUEUE_SIZE`. -/
def TM_QUEUE_SIZE : Nat := 16

/-- The queue-related part of `g_telemetry`. -/
structure TmQueueState where
  queue : List TmQueueEntry
  queue_head : Nat
  queue_tail : Nat
  queue_count : Nat
  packets_queued : Nat
  packets_sent : Nat
  queue_overflows : Nat
deriving DecidableEq, Repr

/-- The queue state after `telemetry_init` (all slots zeroed and invalid). -/
def telemetry_init_queue : TmQueueState :=
  { queue := List.replicate TM_QUEUE_SIZE tm_queue_zero_entry,
    queue_head := 0, queue_tail := 0, queue_count := 0,
    packets_queued := 0, packets_sent := 0, queue_overflows := 0 }

/-- `telemetry_queue_packet`.  When the queue is full and the incoming
priority is at least HIGH, the first valid entry with strictly lower
priority is invalidated; if room was made (or was there), the packet is
stored at `queue_tail` — the slot the next ordinary insertion would use —
not at the invalidated slot.  The NULL guard cannot arise. -/
def telemetry_queue_packet (s : TmQueueState) (pkt : CcsdsTmPacket)
    (priority : Nat) : Status × TmQueueState :=
  let s :=
    if TM_QUEUE_SIZE ≤ s.queue_count ∧ TM_PRIORITY_HIGH ≤ priority then
      match s.queue.findIdx? (fun e => e.valid ∧ e.priority < priority) with
      | some i =>
        let e := s.queue.getD i tm_queue_zero_entry
        { s with queue := s.queue.set i { e with valid := false },
                 queue_count := s.queue_count - 1 }
      | none => s
    else s
  if TM_QUEUE_SIZE ≤ s.queue_count then
    (.overflow, { s with queue_overflows := s.queue_overflows + 1 })
  else
    (.ok,
     { s with
        queue := s.queue.set s.queue_tail ⟨pkt, priority, true⟩,
        queue_tail := (s.queue_tail + 1) % TM_QUEUE_SIZE,
        queue_count := s.queue_count + 1,
        packets_queued := s.packets_queued + 1 })

/-- `telemetry_dequeue_packet`: scans all slots keeping the entry with
`priority >= best_priority` (so ties go to the highest index), removes it
and returns its packet.  The NULL guard cannot arise. -/
def telemetry_dequeue_packet (s : TmQueueState) :
    Status × TmQueueState × Option CcsdsTmPacket :=
  if s.queue_count = 0 then (.notFound, s, none)
  else
    let best := s.queue.enum.foldl
      (fun acc (p : Nat × TmQueueEntry) =>
        if p.2.valid ∧ acc.2 ≤ p.2.priority then (some p.1, p.2.priority) else acc)
      ((none : Option Nat), TM_PRIORITY_LOW)
    match best.1 with
    | none => (.notFound, s, none)
    | some i =>
      let e := s.queue.getD i tm_queue_zero_entry
      (.ok,
       { s with queue := s.queue.set i { e with valid := false },
                queue_count := s.queue_count - 1,
                packets_sent := s.packets_sent + 1 },
       some e.packet)

/-! ## Telecommand dispatcher (src/flight/comms/telecommand.c) -/

/-- `tc_auth_level_t` values (compared as integers in the source). -/
def TC_AUTH_NONE : Nat := 0

/-- `TC_AUTH_BASIC`. -/
def TC_AUTH_BASIC : Nat := 1

/-- `TC_AUTH_ELEVATED`. -/
def TC_AUTH_ELEVATED : Nat := 2

/-- `TC_AUTH_CRITICAL`. -/
def TC_AUTH_CRITICAL : Nat := 3

/-- `TC_MAX_HANDLERS`. -/
def TC_MAX_HANDLERS : Nat := 64

/-- `TC_HISTORY_SIZE`. -/
def TC_HISTORY_SIZE : Nat := 16

/-- `TC_SAFE_LIST_SIZE`. -/
def TC_SAFE_LIST_SIZE : Nat := 16

/-- Identifier standing for a `tc_handler_t` function pointer (the seven
standard handlers of telecommand.c). -/
inductive HandlerId where
  | ping | connectionTest | modeChange | reset | enableHk | disableHk | timeSync
deriving DecidableEq, Repr

/-- `tc_definition_t`. -/
structure TcDefinition where
  service_type : Nat
  service_subtype : Nat
  auth_level : Nat
  handler : HandlerId
  name : String
  timeout_ms : Nat
deriving DecidableEq, Repr

/-- `tc_record_t`. -/
structure TcRecord where
  sequence : Nat
  service_type : Nat
  service_subtype : Nat
  timestamp_ms : Nat
  status : TcStatus
deriving DecidableEq, Repr

/-- The zeroed history record left by `memset` in `telecommand_init`. -/
def tc_zero_record : TcRecord :=
  { sequence := 0, service_type := 0, service_subtype := 0,
    timestamp_ms := 0, status := .accepted }

/-- The `g_telecommand` state (handler count and safe-list count are the
list lengths; the unused `auth_key` bytes are summarised by
`auth_key_set`, which is all the embedded functions consult). -/
structure TcState where
  handlers : List TcDefinition
  history : List TcRecord
  history_idx : Nat
  auth_key_set : Bool
  safe_list : List (Nat × Nat)
  accepted_count : Nat
  rejected_count : Nat
  executed_count : Nat
deriving DecidableEq, Repr

/-- `find_handler`: first registered definition with matching service
type and subtype. -/
def find_handler (s : TcState) (service_type service_subtype : Nat) :
    Option TcDefinition :=
  s.handlers.find? (fun d =>
    d.service_type = service_type ∧ d.service_subtype = service_subtype)

/-- `record_command`: writes the circular history slot at `history_idx`
and advances the index modulo `TC_HISTORY_SIZE`. -/
def record_command (s : TcState) (t : TimeState) (pkt : CcsdsTcPacket)
    (status : TcStatus) : TcState :=
  let r : TcRecord :=
    { sequence := ccsds_get_sequence pkt.primary,
      service_type := pkt.secondary.service_type,
      service_subtype := pkt.secondary.service_subtype,
      timestamp_ms := time_get_uptime_ms t,
      status := status }
  { s with history := s.history.set s.history_idx r,
           history_idx := (s.history_idx + 1) % TC_HISTORY_SIZE }

/-- `telecommand_get_last_record`. -/
def telecommand_get_last_record (s : TcState) : TcRecord :=
  s.history.getD
    (if s.history_idx = 0 then TC_HISTORY_SIZE - 1 else s.history_idx - 1)
    tc_zero_record

/-- `telecommand_register`.  The NULL guards cannot arise. -/
def telecommand_register (s : TcState) (d : TcDefinition) : Status × TcState :=
  if TC_MAX_HANDLERS ≤ s.handlers.length then (.noMemory, s)
  else if (find_handler s d.service_type d.service_subtype).isSome then (.busy, s)
  else (.ok, { s with handlers := s.handlers ++ [d] })

/-- `telecommand_add_to_safe_list`. -/
def telecommand_add_to_safe_list (s : TcState)
    (service_type service_subtype : Nat) : TcState :=
  if TC_SAFE_LIST_SIZE ≤ s.safe_list.length then s
  else { s with safe_list := s.safe_list ++ [(service_type, service_subtype)] }

/-- `telecommand_is_safe`. -/
def telecommand_is_safe (s : TcState) (service_type service_subtype : Nat) :
    Bool :=
  s.safe_list.any (fun p => p.1 = service_type ∧ p.2 = service_subtype)

/-- `telecommand_init`: zeroed state, the seven standard handlers
registered in source order, the four default safe-list entries. -/
def telecommand_init : TcState :=
  let s0 : TcState :=
    { handlers := [], history := List.replicate TC_HISTORY_SIZE tc_zero_record,
      history_idx := 0, auth_key_set := false, safe_list := [],
      accepted_count := 0, rejected_count := 0, executed_count := 0 }
  let reg := fun s d => (telecommand_register s d).2
  let s := reg s0 ⟨17, 1, TC_AUTH_NONE, .ping, "Ping", 1000⟩
  let s := reg s ⟨17, 2, TC_AUTH_NONE, .connectionTest, "Connection Test", 5000⟩
  let s := reg s ⟨8, 1, TC_AUTH_ELEVATED, .modeChange, "Mode Change", 5000⟩
  let s := reg s ⟨8, 4, TC_AUTH_CRITICAL, .reset, "System Reset", 10000⟩
  let s := reg s ⟨3, 5, TC_AUTH_BASIC, .enableHk, "Enable HK", 1000⟩
  let s := reg s ⟨3, 6, TC_AUTH_BASIC, .disableHk, "Disable HK", 1000⟩
  let s := reg s ⟨9, 1, TC_AUTH_ELEVATED, .timeSync, "Time Sync", 2000⟩
  let s := telecommand_add_to_safe_list s 17 1
  let s := telecommand_add_to_safe_list s 17 2
  let s := telecommand_add_to_safe_list s 3 5
  telecommand_add_to_safe_list s 3 6

/-- `telecommand_validate`: CCSDS validation plus handler existence.  The
NULL guard cannot arise. -/
def telecommand_validate (s : TcState) (pkt : CcsdsTcPacket) : Bool :=
  ccsds_validate_tc pkt &&
    (find_handler s pkt.secondary.service_type pkt.secondary.service_subtype).isSome

/-- `telecommand_verify_auth`: the cryptographic check is a TODO in the
source; it returns true with or without a key. -/
def telecommand_verify_auth (s : TcState) (_pkt : CcsdsTcPacket) : Bool :=
  if ¬ s.auth_key_set then true else true

/-- `telecommand_authorize`.  `current` is `mode_get_current()` (an inline
alias of `mode_manager_get_current`). -/
def telecommand_authorize (s : TcState) (current : Mode) (pkt : CcsdsTcPacket)
    (required : Nat) : Bool :=
  if required = TC_AUTH_NONE then true
  else if current = .safe ∧
      ¬ telecommand_is_safe s pkt.secondary.service_type pkt.secondary.service_subtype
    then false
  else if s.auth_key_set ∧ TC_AUTH_ELEVATED ≤ required then
    telecommand_verify_auth s pkt
  else true

/-- The global state outside the dispatcher that `telecommand_process`
reads or writes: the time manager, the CCSDS sequence counters, the mode
manager, the telemetry queue, and the telemetry definition table. -/
structure World where
  time : TimeState
  seqs : SeqMap
  modeState : ModeState
  tmQueue : TmQueueState
  tmDefs : List TmDefinition

/-- `telecommand_send_ack`: builds the 8-byte verification payload
(sequence, status, reserved, uptime), a service-1 TM with subtype 1
(accepted), 7 (executed) or 8 (anything else) on APID_SYSTEM = 1, and
queues it at HIGH priority. -/
def telecommand_send_ack (w : World) (sequence : Nat) (status : TcStatus) :
    World :=
  let ts := time_get_uptime_ms w.time
  let ack_data : List Nat :=
    [(sequence >>> 8) &&& 0xFF, sequence &&& 0xFF,
     TcStatus.toNat status, 0,
     (ts >>> 24) &&& 0xFF, (ts >>> 16) &&& 0xFF, (ts >>> 8) &&& 0xFF, ts &&& 0xFF]
  let subtype : Nat :=
    if status = .accepted then 1 else if status = .executed then 7 else 8
  let (pkt0, seqs') := ccsds_build_tm_header w.seqs w.time 1 1 subtype
  let (_, pkt1) := ccsds_tm_set_data pkt0 ack_data
  let pkt2 := ccsds_finalize_tm pkt1
  let (_, q') := telemetry_queue_packet w.tmQueue pkt2 TM_PRIORITY_HIGH
  { w with seqs := seqs', tmQueue := q' }

/-- Semantics of the seven standard `tc_handler_t` functions of
telecommand.c.  Each takes the TC data field and the global state and
returns (status, response bytes, new state); `telecommand_process` passes
`pkt.data` with `pkt.data_length`, so `data` is the whole data field. -/
def eval_tc_handler (h : HandlerId) (data : List Nat) (w : World) :
    TcStatus × List Nat × World :=
  match h with
  | .ping =>
    -- tc_handler_ping echoes "PONG"
    (.executed, [0x50, 0x4F, 0x4E, 0x47], w)
  | .connectionTest =>
    if 0 < data.length ∧ data.length ≤ 200 then (.executed, data, w)
    else (.executed, [], w)
  | .modeChange =>
    if data.length < 1 then (.failed, [], w)
    else
      let target := data.getD 0 0
      if 6 ≤ target then (.failed, [], w)
      else
        let (st, ms') := mode_manager_request (Mode.fromNat target) w.modeState
        ((if st = .ok then .executed else .failed),
         [if st = .ok then 1 else 0, ms'.current.toNat],
         { w with modeState := ms' })
  | .reset =>
    -- tc_handler_reset acknowledges; the deferred reset is a TODO in the source
    (.executed, [1], w)
  | .enableHk =>
    if data.length < 2 then (.failed, [], w)
    else
      let pid := (data.getD 0 0 <<< 8) ||| data.getD 1 0
      let (st, defs') := telemetry_enable w.tmDefs pid
      ((if st = .ok then .executed else .failed),
       [if st = .ok then 1 else 0], { w with tmDefs := defs' })
  | .disableHk =>
    if data.length < 2 then (.failed, [], w)
    else
      let pid := (data.getD 0 0 <<< 8) ||| data.getD 1 0
      let (st, defs') := telemetry_disable w.tmDefs pid
      ((if st = .ok then .executed else .failed),
       [if st = .ok then 1 else 0], { w with tmDefs := defs' })
  | .timeSync =>
    if data.length < 6 then (.failed, [], w)
    else
      let secs := (data.getD 0 0 <<< 24) ||| (data.getD 1 0 <<< 16) |||
        (data.getD 2 0 <<< 8) ||| data.getD 3 0
      let sub := (data.getD 4 0 <<< 8) ||| data.getD 5 0
      let t' := time_sync_utc w.time secs sub
      let (cs, _) := time_get_timestamp t'
      (.executed,
       [(cs >>> 24) &&& 0xFF, (cs >>> 16) &&& 0xFF, (cs >>> 8) &&& 0xFF, cs &&& 0xFF],
       { w with time := t' })

/-- `telecommand_process`: validate, find the handler, authorize, count
and record, acknowledge, execute, acknowledge again.  On either rejection
path the counters and history are updated and the function returns with
no acknowledgment sent.  The NULL-packet guard cannot arise. -/
def telecommand_process (s : TcState) (w : World) (pkt : CcsdsTcPacket) :
    TcStatus × TcState × World :=
  if ¬ telecommand_validate s pkt then
    (.rejectedInvalid,
     record_command { s with rejected_count := s.rejected_count + 1 }
       w.time pkt .rejectedInvalid,
     w)
  else
    match find_handler s pkt.secondary.service_type pkt.secondary.service_subtype with
    | none =>
      -- unreachable: telecommand_validate just checked a handler exists
      (.rejectedInvalid, s, w)
    | some hdef =>
      if ¬ telecommand_authorize s w.modeState.current pkt hdef.auth_level then
        (.rejectedAuth,
         record_command { s with rejected_count := s.rejected_count + 1 }
           w.time pkt .rejectedAuth,
         w)
      else
        let s1 := { s with accepted_count := s.accepted_count + 1 }
        let w1 := telecommand_send_ack w (ccsds_get_sequence pkt.primary) .accepted
        let (result, _resp, w2) := eval_tc_handler hdef.handler pkt.data w1
        let s2 :=
          if result = .executed then
            { s1 with executed_count := s1.executed_count + 1 }
          else s1
        let s3 := record_command s2 w2.time pkt result
        let w3 := telecommand_send_ack w2 (ccsds_get_sequence pkt.primary) result
        (result, s3, w3)

/-! ## Cooperative scheduler (src/flight/core/scheduler/scheduler.c)

The job table capacity `OPENFSW_SCHED_MAX_JOBS` comes from a config header
that is not among the files under src/, so the table length is a
parameter of the initial state.  Per spec §4.3 the `uint32_t` wrap-around
of `now_ms` is ignored (system lifetime bounds permit this), so the
clocks are plain naturals. -/

/-- `sched_job_t`.  `fn` is a function-pointer identifier; 0 stands for
NULL, as in `scheduler_reset`. -/
structure SchedJob where
  fn : Nat
  period_ms : Nat
  next_run_ms : Nat
  used : Bool
deriving DecidableEq, Repr

/-- `g_sched`. -/
structure SchedState where
  now_ms : Nat
  jobs : List SchedJob
deriving DecidableEq, Repr

/-- `scheduler_reset` with a table of `n` slots. -/
def scheduler_reset (n : Nat) : SchedState :=
  { now_ms := 0, jobs := List.replicate n ⟨0, 0, 0, false⟩ }

/-- `scheduler_register_periodic`: refuses a NULL function or zero period,
takes the first unused slot and arms it at `now + period`. -/
def scheduler_register_periodic (s : SchedState) (fn period_ms : Nat) :
    Bool × SchedState :=
  if fn = 0 ∨ period_ms = 0 then (false, s)
  else
    match s.jobs.findIdx? (fun j => !j.used) with
    | some i =>
      let j : SchedJob := ⟨fn, period_ms, s.now_ms + period_ms, true⟩
      (true, { s with jobs := s.jobs.set i j })
    | none => (false, s)

/-- One observed job invocation: which slot ran, its function identifier,
the scheduler clock at the call, and the deadline (`next_run_ms` before
the update) that triggered it. -/
structure SchedInvocation where
  slot : Nat
  fn : Nat
  at_ms : Nat
  deadline_ms : Nat
deriving DecidableEq, Repr

/-- The slot loop of `scheduler_step`: every used slot whose deadline has
passed gets `next_run_ms += period_ms` and its function is invoked once,
in slot order.  `idx` is the absolute index of the first slot in `jobs`. -/
def sched_step_jobs (now idx : Nat) :
    List SchedJob → List SchedJob × List SchedInvocation
  | [] => ([], [])
  | j :: rest =>
    let (rest', log) := sched_step_jobs now (idx + 1) rest
    if j.used ∧ j.next_run_ms ≤ now then
      ({ j with next_run_ms := j.next_run_ms + j.period_ms } :: rest',
       ⟨idx, j.fn, now, j.next_run_ms⟩ :: log)
    else (j :: rest', log)

/-- `scheduler_step(elapsed_ms)`: advance the clock, then drain due slots. -/
def scheduler_step (s : SchedState) (elapsed_ms : Nat) :
    SchedState × List SchedInvocation :=
  let now := s.now_ms + elapsed_ms
  let (jobs', log) := sched_step_jobs now 0 s.jobs
  ({ now_ms := now, jobs := jobs' }, log)

/-- A sequence of `scheduler_step` calls, concatenating the invocation
logs. -/
def scheduler_run (s : SchedState) : List Nat → SchedState × List SchedInvocation
  | [] => (s, [])
  | e :: rest =>
    let (s', log1) := scheduler_step s e
    let (s'', log2) := scheduler_run s' rest
    (s'', log1 ++ log2)

/-- The invocations of one slot, in order. -/
def sched_invocations_of (slot : Nat) (log : List SchedInvocation) :
    List SchedInvocation :=
  log.filter (fun e => e.slot = slot)

/-! ## Boot sequencer (src/flight/boot/boot.c) -/

/-- `BOOT_SAFE_THRESHOLD` (boot.h). -/
def BOOT_SAFE_THRESHOLD : Nat := 3

/-- `BOOT_COUNTER_MAGIC` (boot.h). -/
def BOOT_COUNTER_MAGIC : Nat := 0xB007C0DE

/-- `boot_persistent_t` (boot.h). -/
structure BootPersistent where
  magic : Nat
  boot_count : Nat
  reset_count_watchdog : Nat
  reset_count_brownout : Nat
  reset_count_software : Nat
  last_reset_cause : ResetCause
  requested_mode : Mode
  checksum : Nat
deriving DecidableEq, Repr

/-- Sum of the four bytes of a `uint32_t` value (the byte sum is the same
in either endianness, so `boot_compute_checksum`'s byte walk reduces to
this per field). -/
def byte_sum_u32 (x : Nat) : Nat :=
  (x &&& 0xFF) + ((x >>> 8) &&& 0xFF) + ((x >>> 16) &&& 0xFF) + ((x >>> 24) &&& 0xFF)

/-- `boot_compute_checksum`: byte sum over every field before `checksum`
(all fields are 4-byte words on the targets, the enums included), XORed
with 0xDEADBEEF. -/
def boot_compute_checksum (d : BootPersistent) : Nat :=
  (byte_sum_u32 d.magic + byte_sum_u32 d.boot_count +
   byte_sum_u32 d.reset_count_watchdog + byte_sum_u32 d.reset_count_brownout +
   byte_sum_u32 d.reset_count_software + byte_sum_u32 d.last_reset_cause.toNat +
   byte_sum_u32 d.requested_mode.toNat) ^^^ 0xDEADBEEF

/-- `boot_validate_persistent`. -/
def boot_validate_persistent (d : BootPersistent) : Bool :=
  if d.magic ≠ BOOT_COUNTER_MAGIC then false
  else d.checksum = boot_compute_checksum d

/-- `boot_init_persistent`. -/
def boot_init_persistent : BootPersistent :=
  let d : BootPersistent :=
    { magic := BOOT_COUNTER_MAGIC, boot_count := 0, reset_count_watchdog := 0,
      reset_count_brownout := 0, reset_count_software := 0,
      last_reset_cause := .unknown, requested_mode := .boot, checksum := 0 }
  { d with checksum := boot_compute_checksum d }

/-- `boot_update_persistent`. -/
def boot_update_persistent (d : BootPersistent) : BootPersistent :=
  { d with checksum := boot_compute_checksum d }

/-- `boot_is_safe_required`: watchdog count at threshold, or last stored
cause is brown-out. -/
def boot_is_safe_required (d : BootPersistent) : Bool :=
  if BOOT_SAFE_THRESHOLD ≤ d.reset_count_watchdog then true
  else if d.last_reset_cause = .brown_out then true
  else false

/-- `boot_select_mode`.  `strap` is `bsp_safe_mode_pin_asserted()`.
Counter increments are `uint32_t`. -/
def boot_select_mode (strap : Bool) (d : BootPersistent) (cause : ResetCause) :
    Mode × BootPersistent :=
  if strap then (.safe, d)
  else if boot_is_safe_required d then (.safe, d)
  else
    match cause with
    | .watchdog =>
      let d := { d with
        reset_count_watchdog := (d.reset_count_watchdog + 1) % 2 ^ 32 }
      if BOOT_SAFE_THRESHOLD ≤ d.reset_count_watchdog then (.safe, d)
      else (.recovery, d)
    | .brown_out =>
      (.low_power, { d with
        reset_count_brownout := (d.reset_count_brownout + 1) % 2 ^ 32 })
    | .power_on => (.detumble, d)
    | .software =>
      if d.requested_mode ≠ .boot then (d.requested_mode, d)
      else (.nominal, d)
    | _ => (.safe, d)

/-- `boot_main` up to the `rtos_start` handoff: validate or reinitialise
the persistent record, store the reset cause read from the BSP, increment
the boot counter (persisting), select the mode, persist again, and hand
the selected mode to the RTOS.  The memory-image copy, BSP init and the
non-returning tail are outside the model. -/
def boot_main_model (d0 : BootPersistent) (strap : Bool) (cause : ResetCause) :
    Mode × BootPersistent :=
  let d := if boot_validate_persistent d0 then d0 else boot_init_persistent
  let d := { d with last_reset_cause := cause }
  let d := boot_update_persistent { d with boot_count := (d.boot_count + 1) % 2 ^ 32 }
  let (mode, d) := boot_select_mode strap d cause
  (mode, boot_update_persistent d)

/-! ## Spec-modelled TM deserializer -/

/-- Modelled from the spec: the source has no TM deserializer under src/
(only `ccsds_parse_tc` exists); spec §6.1 and §8 speak of parsing a
serialized TM packet back ("parse (inverse)").  This reads the big-endian
wire layout of §6.1 / §3: 6-byte primary header, 10-byte TM secondary
header, data field of `packet_length + 1 - 10 - 2` bytes, 2-byte CRC. -/
def ccsds_parse_tm_spec (raw : List Nat) : CcsdsTmPacket :=
  let b := fun i => raw.getD i 0
  let packet_length := b 4 * 256 + b 5
  let data_len := packet_length + 1 - 10 - 2
  { primary :=
     { packet_id := b 0 * 256 + b 1,
       sequence_ctrl := b 2 * 256 + b 3,
       packet_length := packet_length },
    secondary :=
     { coarse_time := ((b 6 * 256 + b 7) * 256 + b 8) * 256 + b 9,
       fine_time := b 10 * 256 + b 11,
       service_type := b 12, service_subtype := b 13,
       destination_id := b 14, spare := b 15 },
    data := (List.range data_len).map (fun i => b (16 + i)),
    crc := b (16 + data_len) * 256 + b (16 + data_len + 1) }

/-! ## Concrete inputs used by the theorems -/

/-- A well-formed TC packet for service/subtype with the given data:
version 0, type TC, secondary header present, APID 1, standalone sequence
flags, consistent length field, CRC filled in the way
`ccsds_validate_tc` checks it. -/
def mk_tc (service_type service_subtype : Nat) (data : List Nat) :
    CcsdsTcPacket :=
  let p : CcsdsTcPacket :=
    { primary :=
       { packet_id := 0x1801, sequence_ctrl := 0xC000,
         packet_length := 10 + data.length + 2 - 1 },
      secondary :=
       { service_type := service_type, service_subtype := service_subtype,
         source_id := 0, spare := 0, scheduled_time := 0, ack_flags := 0 },
      data := data, crc := 0 }
  { p with crc := ccsds_calc_crc (tc_crc_bytes p) }

/-- The ModeChange TC of spec scenario 4: service 8, subtype 1,
payload [3] (NOMINAL). -/
def c1_tc : CcsdsTcPacket := mk_tc 8 1 [3]

/-- The world of spec scenario 4: freshly initialised services, current
mode SAFE. -/
def c1_world : World :=
  { time := time_manager_init, seqs := ccsds_init_seqs,
    modeState := mode_manager_init .safe 0,
    tmQueue := telemetry_init_queue, tmDefs := telemetry_init_defs }

/-- A world with freshly initialised services and current mode NOMINAL
(spec scenarios 3 and 6). -/
def w_nominal : World :=
  { time := time_manager_init, seqs := ccsds_init_seqs,
    modeState := mode_manager_init .nominal 0,
    tmQueue := telemetry_init_queue, tmDefs := telemetry_init_defs }

/-- A Ping TC (service 17, subtype 1) whose stored CRC is corrupted by
one increment. -/
def c3_tc : CcsdsTcPacket :=
  let p := mk_tc 17 1 [0xAB]
  { p with crc := (p.crc + 1) % 2 ^ 16 }

/-- A valid Ping TC (service 17, subtype 1, empty data). -/
def c4_tc : CcsdsTcPacket := mk_tc 17 1 []

/-- Does a byte list contain the ASCII bytes "PONG" as a contiguous run? -/
def contains_pong : List Nat → Bool
  | [] => false
  | b :: rest =>
    ((b :: rest).take 4 = [0x50, 0x4F, 0x4E, 0x47]) || contains_pong rest

/-- The TM packet of the C2 pipeline: built on APID 1 (service 3,
subtype 25) at the zero timestamp, two data bytes, finalized. -/
def c2_pkt : CcsdsTmPacket :=
  let (p0, _) := ccsds_build_tm_header ccsds_init_seqs time_manager_init 1 3 25
  let (_, p1) := ccsds_tm_set_data p0 [0xDE, 0xAD]
  ccsds_finalize_tm p1

/-- The serialized bytes of `c2_pkt`. -/
def c2_bytes : List Nat := (ccsds_serialize_tm c2_pkt 4096).getD []

/-- An 18-byte TC buffer whose length field (13) makes the parser derive
a 2-byte data field, which together with the CRC needs 20 bytes. -/
def c9_raw : List Nat :=
  [0x18, 0x01, 0xC0, 0x00, 0x00, 0x0D, 17, 1, 0, 0, 0, 0, 0, 0, 0, 0, 0xAA, 0xBB]

/-- A dummy TM packet distinguished by a tag byte (used to fill the
telemetry queue in the C6 scenarios). -/
def mk_tm_dummy (tag : Nat) : CcsdsTmPacket :=
  { primary := { packet_id := 0, sequence_ctrl := 0, packet_length := 0 },
    secondary := { coarse_time := 0, fine_time := 0, service_type := 0,
                   service_subtype := 0, destination_id := 0, spare := 0 },
    data := [tag], crc := 0 }

/-- Spec scenario 5 prefix: 16 Normal packets enqueued into a fresh queue
(queue full, tail back at slot 0). -/
def c6_full_normal : TmQueueState :=
  (List.range 16).foldl
    (fun q i => (telemetry_queue_packet q (mk_tm_dummy i) TM_PRIORITY_NORMAL).2)
    telemetry_init_queue

/-- A full queue whose slot 0 holds a HIGH-priority packet and slots 1-15
hold Normal packets (tail back at slot 0). -/
def c6_mixed : TmQueueState :=
  (List.range 15).foldl
    (fun q i => (telemetry_queue_packet q (mk_tm_dummy (i + 1)) TM_PRIORITY_NORMAL).2)
    (telemetry_queue_packet telemetry_init_queue (mk_tm_dummy 0) TM_PRIORITY_HIGH).2

/-- A four-slot scheduler with one job (identifier 7, period 10 ms)
registered at time 0. -/
def c7_sched : SchedState :=
  (scheduler_register_periodic (scheduler_reset 4) 7 10).2

/-! ## Theorems -/

/-- Claim C10: for every apid greater than 2047, `ccsds_next_sequence`
returns 0 without an error and leaves every per-APID counter unchanged;
for every apid at most 2047 it returns the counter's current value and
increments only that counter, modulo 2^14. -/
theorem C10_next_sequence (s : SeqMap) (apid : Nat) :
    (2047 < apid →
      (ccsds_next_sequence s apid).1 = 0 ∧
      ∀ a, (ccsds_next_sequence s apid).2 a = s a) ∧
    (apid ≤ 2047 →
      (ccsds_next_sequence s apid).1 = s apid ∧
      (ccsds_next_sequence s apid).2 apid = (s apid + 1) % 2 ^ 14 ∧
      ∀ a, a ≠ apid → (ccsds_next_sequence s apid).2 a = s a) := by
  constructor
  · intro h
    simp [ccsds_next_sequence, APID_MAX, h]
  · intro h
    have h' : ¬ APID_MAX < apid := by simp [APID_MAX]; omega
    refine ⟨by simp [ccsds_next_sequence, h'], ?_, ?_⟩
    · have : (s apid + 1) &&& 0x3FFF = (s apid + 1) % 2 ^ 14 := by
        have := Nat.and_pow_two_sub_one_eq_mod (s apid + 1) 14
        simpa using this
      simp [ccsds_next_sequence, h', this]
    · intro a ha
      simp [ccsds_next_sequence, h', ha]

/-- Witness for C10 at apid 5 (and apid 4000 for the out-of-range part). -/
theorem C10_next_sequence_witness :
    ((2047 < 4000 → (ccsds_next_sequence ccsds_init_seqs 4000).1 = 0 ∧
        ∀ a, (ccsds_next_sequence ccsds_init_seqs 4000).2 a = ccsds_init_seqs a) ∧
      (4000 ≤ 2047 → (ccsds_next_sequence ccsds_init_seqs 4000).1 = ccsds_init_seqs 4000 ∧
        (ccsds_next_sequence ccsds_init_seqs 4000).2 4000 = (ccsds_init_seqs 4000 + 1) % 2 ^ 14 ∧
        ∀ a, a ≠ 4000 → (ccsds_next_sequence ccsds_init_seqs 4000).2 a = ccsds_init_seqs a)) ∧
    ((2047 < 5 → (ccsds_next_sequence ccsds_init_seqs 5).1 = 0 ∧
        ∀ a, (ccsds_next_sequence ccsds_init_seqs 5).2 a = ccsds_init_seqs a) ∧
      (5 ≤ 2047 → (ccsds_next_sequence ccsds_init_seqs 5).1 = ccsds_init_seqs 5 ∧
        (ccsds_next_sequence ccsds_init_seqs 5).2 5 = (ccsds_init_seqs 5 + 1) % 2 ^ 14 ∧
        ∀ a, a ≠ 5 → (ccsds_next_sequence ccsds_init_seqs 5).2 a = ccsds_init_seqs a)) :=
  ⟨C10_next_sequence ccsds_init_seqs 4000, C10_next_sequence ccsds_init_seqs 5⟩

/-- Claim C8: for every pair (from, to) not in the static transition table,
`mode_manager_request(to)` from a state whose current mode is `from`
returns PermissionDenied and leaves the whole mode state unchanged. -/
theorem C8_request_denied (s : ModeState) (tgt : Mode)
    (h : in_transition_table s.current tgt = false) :
    mode_manager_request tgt s = (.permission, s) := by
  have key : ∀ f t : Mode,
      in_transition_table f t = false → mode_manager_can_transition f t = false := by
    decide
  simp [mode_manager_request, key s.current tgt h]

/-- Witness for C8: SAFE → RECOVERY is not in the table, and the request
is refused without touching the state. -/
theorem C8_request_denied_witness :
    in_transition_table (mode_manager_init .safe 0).current .recovery = false ∧
    mode_manager_request .recovery (mode_manager_init .safe 0) =
      (.permission, mode_manager_init .safe 0) :=
  ⟨by decide, C8_request_denied (mode_manager_init .safe 0) .recovery (by decide)⟩

/-- Claim C1, counterexample: processing the ModeChange TC (service 8,
subtype 1, payload [3]) in SAFE mode with no key set is NOT accepted —
`telecommand_authorize` rejects it because (8,1) is not on the default
safe-mode allow-list — and the mode state is left untouched, so no
transition to NOMINAL happens. -/
theorem C1_counterexample :
    (telecommand_process telecommand_init c1_world c1_tc).1 = .rejectedAuth ∧
    (telecommand_process telecommand_init c1_world c1_tc).1 ≠ .accepted ∧
    (telecommand_process telecommand_init c1_world c1_tc).1 ≠ .executed ∧
    (telecommand_process telecommand_init c1_world c1_tc).2.2.modeState =
      c1_world.modeState ∧
    (telecommand_process telecommand_init c1_world c1_tc).2.2.modeState.current ≠
      .nominal := by
  decide

/-- Claim C1, amended: in SAFE mode the ModeChange TC is rejected with
RejectedAuth (the pair (8,1) is not on the safe-mode allow-list), the
rejected counter increments, the rejection is recorded, no TM is queued
and the mode stays SAFE; the mode-manager path by itself does behave as
scenario 4 expects: `mode_manager_request(NOMINAL)` from SAFE returns Ok
and the next `mode_manager_process` yields current = NOMINAL with
previous = SAFE. -/
theorem C1_safe_mode_change :
    (telecommand_process telecommand_init c1_world c1_tc).1 = .rejectedAuth ∧
    telecommand_is_safe telecommand_init 8 1 = false ∧
    (telecommand_process telecommand_init c1_world c1_tc).2.1.rejected_count =
      telecommand_init.rejected_count + 1 ∧
    (telecommand_get_last_record
      (telecommand_process telecommand_init c1_world c1_tc).2.1).status =
      .rejectedAuth ∧
    (telecommand_process telecommand_init c1_world c1_tc).2.2.tmQueue =
      c1_world.tmQueue ∧
    (telecommand_process telecommand_init c1_world c1_tc).2.2.modeState.current =
      .safe ∧
    (mode_manager_request .nominal (mode_manager_init .safe 0)).1 = .ok ∧
    (mode_manager_process 5
      (mode_manager_request .nominal (mode_manager_init .safe 0)).2).current =
      .nominal ∧
    (mode_manager_process 5
      (mode_manager_request .nominal (mode_manager_init .safe 0)).2).previous =
      .safe := by
  decide

/-- Claim C3, counterexample: a Ping TC with corrupted CRC is rejected as
RejectedInvalid with the counter and history updated, but NO
acknowledgment TM is queued — the telemetry queue is exactly the one from
before the call. -/
theorem C3_counterexample :
    (telecommand_process telecommand_init w_nominal c3_tc).1 = .rejectedInvalid ∧
    (telecommand_process telecommand_init w_nominal c3_tc).2.2.tmQueue =
      w_nominal.tmQueue ∧
    (telecommand_process telecommand_init w_nominal c3_tc).2.2.tmQueue.packets_queued
      = 0 := by
  decide

/-- The seven standard handlers only ever return Executed or Failed,
never a rejection status (rejections arise only before the handler
runs). -/
theorem eval_tc_handler_not_rejected (h : HandlerId) (data : List Nat)
    (w : World) :
    (eval_tc_handler h data w).1 ≠ .rejectedInvalid ∧
    (eval_tc_handler h data w).1 ≠ .rejectedAuth := by
  cases h <;> simp only [eval_tc_handler] <;> (try split_ifs) <;> simp_all

/-- Claim C3, amended: for EVERY telecommand packet that
`telecommand_process` rejects — on the validation path (RejectedInvalid)
or on the authorization path (RejectedAuth), from any dispatcher state
and any world — the rejected counter is incremented, the rejection is
recorded in the history slot at the write pointer (which advances modulo
16), and NO acknowledgment TM is queued: the whole world, the telemetry
queue included, is returned untouched. -/
theorem C3_rejection_effects (s : TcState) (w : World) (pkt : CcsdsTcPacket)
    (hrej : (telecommand_process s w pkt).1 = .rejectedInvalid ∨
            (telecommand_process s w pkt).1 = .rejectedAuth) :
    (telecommand_process s w pkt).2.1.rejected_count = s.rejected_count + 1 ∧
    (telecommand_process s w pkt).2.1.history =
      s.history.set s.history_idx
        { sequence := ccsds_get_sequence pkt.primary,
          service_type := pkt.secondary.service_type,
          service_subtype := pkt.secondary.service_subtype,
          timestamp_ms := time_get_uptime_ms w.time,
          status := (telecommand_process s w pkt).1 } ∧
    (telecommand_process s w pkt).2.1.history_idx =
      (s.history_idx + 1) % TC_HISTORY_SIZE ∧
    (telecommand_process s w pkt).2.2.tmQueue = w.tmQueue ∧
    (telecommand_process s w pkt).2.2 = w := by
  by_cases hv : telecommand_validate s pkt
  · have hsome : (find_handler s pkt.secondary.service_type
        pkt.secondary.service_subtype).isSome := by
      simp only [telecommand_validate, Bool.and_eq_true] at hv
      exact hv.2
    obtain ⟨hdef, hfind⟩ := Option.isSome_iff_exists.mp hsome
    by_cases ha : telecommand_authorize s w.modeState.current pkt hdef.auth_level
    · exfalso
      have hne := eval_tc_handler_not_rejected hdef.handler pkt.data
        (telecommand_send_ack w (ccsds_get_sequence pkt.primary) .accepted)
      have hres : (telecommand_process s w pkt).1 =
          (eval_tc_handler hdef.handler pkt.data
            (telecommand_send_ack w (ccsds_get_sequence pkt.primary) .accepted)).1 := by
        simp [telecommand_process, hv, hfind, ha]
      rcases hrej with h | h
      · exact hne.1 (by rw [← hres]; exact h)
      · exact hne.2 (by rw [← hres]; exact h)
    · simp [telecommand_process, hv, hfind, ha, record_command]
  · simp [telecommand_process, hv, record_command]

/-- Witness for C3 at both rejection paths: the corrupted-CRC Ping TC
(validation rejection) and the ModeChange TC in SAFE mode (authorization
rejection). -/
theorem C3_rejection_effects_witness :
    (((telecommand_process telecommand_init w_nominal c3_tc).1 = .rejectedInvalid ∨
      (telecommand_process telecommand_init w_nominal c3_tc).1 = .rejectedAuth) ∧
     ((telecommand_process telecommand_init w_nominal c3_tc).2.1.rejected_count =
        telecommand_init.rejected_count + 1 ∧
      (telecommand_process telecommand_init w_nominal c3_tc).2.1.history =
        telecommand_init.history.set telecommand_init.history_idx
          { sequence := ccsds_get_sequence c3_tc.primary,
            service_type := c3_tc.secondary.service_type,
            service_subtype := c3_tc.secondary.service_subtype,
            timestamp_ms := time_get_uptime_ms w_nominal.time,
            status := (telecommand_process telecommand_init w_nominal c3_tc).1 } ∧
      (telecommand_process telecommand_init w_nominal c3_tc).2.1.history_idx =
        (telecommand_init.history_idx + 1) % TC_HISTORY_SIZE ∧
      (telecommand_process telecommand_init w_nominal c3_tc).2.2.tmQueue =
        w_nominal.tmQueue ∧
      (telecommand_process telecommand_init w_nominal c3_tc).2.2 = w_nominal)) ∧
    (((telecommand_process telecommand_init c1_world c1_tc).1 = .rejectedInvalid ∨
      (telecommand_process telecommand_init c1_world c1_tc).1 = .rejectedAuth) ∧
     ((telecommand_process telecommand_init c1_world c1_tc).2.1.rejected_count =
        telecommand_init.rejected_count + 1 ∧
      (telecommand_process telecommand_init c1_world c1_tc).2.1.history =
        telecommand_init.history.set telecommand_init.history_idx
          { sequence := ccsds_get_sequence c1_tc.primary,
            service_type := c1_tc.secondary.service_type,
            service_subtype := c1_tc.secondary.service_subtype,
            timestamp_ms := time_get_uptime_ms c1_world.time,
            status := (telecommand_process telecommand_init c1_world c1_tc).1 } ∧
      (telecommand_process telecommand_init c1_world c1_tc).2.1.history_idx =
        (telecommand_init.history_idx + 1) % TC_HISTORY_SIZE ∧
      (telecommand_process telecommand_init c1_world c1_tc).2.2.tmQueue =
        c1_world.tmQueue ∧
      (telecommand_process telecommand_init c1_world c1_tc).2.2 = c1_world)) :=
  ⟨⟨by decide, C3_rejection_effects telecommand_init w_nominal c3_tc (by decide)⟩,
   ⟨by decide, C3_rejection_effects telecommand_init c1_world c1_tc (by decide)⟩⟩

/-- Claim C4, counterexample: processing a valid Ping TC in NOMINAL mode
queues exactly two TMs (the two acknowledgments) and no queued packet
carries the ASCII bytes "PONG" — the handler's response buffer is never
turned into a response TM. -/
theorem C4_counterexample :
    (telecommand_process telecommand_init w_nominal c4_tc).2.2.tmQueue.packets_queued
      = 2 ∧
    (telecommand_process telecommand_init w_nominal c4_tc).2.2.tmQueue.queue.all
      (fun e => !(e.valid && contains_pong e.packet.data)) = true := by
  decide

/-- Claim C4, amended: the Ping TC is executed; exactly two
acknowledgment TMs are queued, in order the accepted ack (service 1,
subtype 1) then the executed ack (subtype 7); the handler writes "PONG"
into its response buffer, but no response TM is queued. -/
theorem C4_ping_effects :
    (telecommand_process telecommand_init w_nominal c4_tc).1 = .executed ∧
    (telecommand_process telecommand_init w_nominal c4_tc).2.2.tmQueue.queue_count
      = 2 ∧
    ((telecommand_process telecommand_init w_nominal c4_tc).2.2.tmQueue.queue.getD
        0 tm_queue_zero_entry).packet.secondary.service_type = 1 ∧
    ((telecommand_process telecommand_init w_nominal c4_tc).2.2.tmQueue.queue.getD
        0 tm_queue_zero_entry).packet.secondary.service_subtype = 1 ∧
    ((telecommand_process telecommand_init w_nominal c4_tc).2.2.tmQueue.queue.getD
        1 tm_queue_zero_entry).packet.secondary.service_subtype = 7 ∧
    (eval_tc_handler .ping [] w_nominal).2.1 = [0x50, 0x4F, 0x4E, 0x47] ∧
    (telecommand_process telecommand_init w_nominal c4_tc).2.2.tmQueue.queue.all
      (fun e => !(e.valid && contains_pong e.packet.data)) = true := by
  decide

/-- Claim C5, counterexample: booting with a valid persistent record
(watchdog count 0), strap not asserted, and cause BROWN_OUT selects SAFE,
not LOW_POWER, and the brownout counter stays 0. -/
theorem C5_counterexample :
    (boot_main_model boot_init_persistent false .brown_out).1 = .safe ∧
    (boot_main_model boot_init_persistent false .brown_out).1 ≠ .low_power ∧
    (boot_main_model boot_init_persistent false .brown_out).2.reset_count_brownout
      = boot_init_persistent.reset_count_brownout := by
  decide

/-- Claim C5, amended: in the `boot_main` flow the reset cause is stored
into the persistent record before mode selection, so for a BROWN_OUT
reset `boot_is_safe_required` already sees last cause = BROWN_OUT and
`boot_select_mode` returns SAFE without touching the brownout counter;
the LOW_POWER branch of `boot_select_mode` is unreachable from
`boot_main`. -/
theorem C5_brownout_boots_safe (d : BootPersistent)
    (hv : boot_validate_persistent d = true)
    (_hw : d.reset_count_watchdog < BOOT_SAFE_THRESHOLD) :
    (boot_main_model d false .brown_out).1 = .safe ∧
    (boot_main_model d false .brown_out).2.reset_count_brownout =
      d.reset_count_brownout ∧
    (boot_main_model d false .brown_out).2.last_reset_cause = .brown_out := by
  simp [boot_main_model, hv, boot_select_mode, boot_is_safe_required,
    boot_update_persistent]

/-- Witness for C5 at the freshly initialised persistent record. -/
theorem C5_brownout_boots_safe_witness :
    (boot_validate_persistent boot_init_persistent = true ∧
      boot_init_persistent.reset_count_watchdog < BOOT_SAFE_THRESHOLD) ∧
    ((boot_main_model boot_init_persistent false .brown_out).1 = .safe ∧
      (boot_main_model boot_init_persistent false .brown_out).2.reset_count_brownout
        = boot_init_persistent.reset_count_brownout ∧
      (boot_main_model boot_init_persistent false .brown_out).2.last_reset_cause
        = .brown_out) :=
  ⟨⟨by decide, by decide⟩,
   C5_brownout_boots_safe boot_init_persistent (by decide) (by decide)⟩

/-- Claim C6, counterexample: with the queue full of 16 valid entries —
slot 0 HIGH, slots 1..15 Normal, tail at 0 — enqueueing a HIGH packet
invalidates slot 1 (the first strictly-lower entry) but stores the new
packet at the tail slot 0, destroying the valid HIGH entry there; the
new packet is NOT stored in the invalidated entry's place and slot 0 is
not left intact. -/
theorem C6_counterexample :
    c6_mixed.queue_count = 16 ∧
    c6_mixed.queue.all (fun e => e.valid) = true ∧
    c6_mixed.queue.findIdx? (fun e => e.valid ∧ e.priority < TM_PRIORITY_HIGH)
      = some 1 ∧
    (telemetry_queue_packet c6_mixed (mk_tm_dummy 100) TM_PRIORITY_HIGH).1 = .ok ∧
    ((telemetry_queue_packet c6_mixed (mk_tm_dummy 100) TM_PRIORITY_HIGH).2.queue.getD
      1 tm_queue_zero_entry).valid = false ∧
    ((telemetry_queue_packet c6_mixed (mk_tm_dummy 100) TM_PRIORITY_HIGH).2.queue.getD
      0 tm_queue_zero_entry).packet = mk_tm_dummy 100 ∧
    ((telemetry_queue_packet c6_mixed (mk_tm_dummy 100) TM_PRIORITY_HIGH).2.queue.getD
        0 tm_queue_zero_entry) ≠
      c6_mixed.queue.getD 0 tm_queue_zero_entry := by
  decide

/-- Claim C6, amended: for EVERY full queue (count 16), incoming priority
at least HIGH, and first valid strictly-lower-priority entry at index i,
the enqueue succeeds, entry i is invalidated, the new packet is stored at
the current tail slot (overwriting whatever entry is there), the tail
advances, and the count stays 16; when i coincides with the tail slot,
the net effect is exactly replacing entry i.  In the spec's scenario (16
Normal packets freshly enqueued, then one Critical) the two slots
coincide at 0: slot 0 is replaced by the Critical packet, every other
entry is intact, and the next dequeue returns the Critical packet. -/
theorem C6_preemption_tail_insert :
    (∀ (s : TmQueueState) (pkt : CcsdsTmPacket) (prio i : Nat),
      s.queue_count = TM_QUEUE_SIZE →
      TM_PRIORITY_HIGH ≤ prio →
      s.queue.findIdx? (fun e => e.valid ∧ e.priority < prio) = some i →
      (telemetry_queue_packet s pkt prio).1 = .ok ∧
      (telemetry_queue_packet s pkt prio).2.queue_count = TM_QUEUE_SIZE ∧
      (telemetry_queue_packet s pkt prio).2.queue =
        (s.queue.set i
          { s.queue.getD i tm_queue_zero_entry with valid := false }).set
          s.queue_tail ⟨pkt, prio, true⟩ ∧
      (telemetry_queue_packet s pkt prio).2.queue_tail =
        (s.queue_tail + 1) % TM_QUEUE_SIZE ∧
      (i = s.queue_tail →
        (telemetry_queue_packet s pkt prio).2.queue =
          s.queue.set i ⟨pkt, prio, true⟩)) ∧
    (c6_full_normal.queue_count = 16 ∧
     c6_full_normal.queue.findIdx?
       (fun e => e.valid ∧ e.priority < TM_PRIORITY_CRITICAL) =
       some c6_full_normal.queue_tail ∧
     (telemetry_queue_packet c6_full_normal (mk_tm_dummy 100)
       TM_PRIORITY_CRITICAL).1 = .ok ∧
     (telemetry_queue_packet c6_full_normal (mk_tm_dummy 100)
       TM_PRIORITY_CRITICAL).2.queue_count = 16 ∧
     (telemetry_queue_packet c6_full_normal (mk_tm_dummy 100)
         TM_PRIORITY_CRITICAL).2.queue.getD 0 tm_queue_zero_entry =
       ⟨mk_tm_dummy 100, TM_PRIORITY_CRITICAL, true⟩ ∧
     (telemetry_queue_packet c6_full_normal (mk_tm_dummy 100)
         TM_PRIORITY_CRITICAL).2.queue.drop 1 = c6_full_normal.queue.drop 1 ∧
     (telemetry_dequeue_packet (telemetry_queue_packet c6_full_normal
         (mk_tm_dummy 100) TM_PRIORITY_CRITICAL).2).2.2 =
       some (mk_tm_dummy 100)) := by
  constructor
  · intro s pkt prio i hcount hhigh hfind
    have hcond : TM_QUEUE_SIZE ≤ s.queue_count ∧ TM_PRIORITY_HIGH ≤ prio :=
      ⟨by rw [hcount], hhigh⟩
    have hc2 : ¬ (TM_QUEUE_SIZE ≤ s.queue_count - 1) := by
      rw [hcount]; decide
    have hrun : telemetry_queue_packet s pkt prio =
        (.ok,
         { queue := (s.queue.set i
              { s.queue.getD i tm_queue_zero_entry with valid := false }).set
              s.queue_tail ⟨pkt, prio, true⟩,
           queue_head := s.queue_head,
           queue_tail := (s.queue_tail + 1) % TM_QUEUE_SIZE,
           queue_count := s.queue_count - 1 + 1,
           packets_queued := s.packets_queued + 1,
           packets_sent := s.packets_sent,
           queue_overflows := s.queue_overflows }) := by
      simp only [telemetry_queue_packet, if_pos hcond, hfind, if_neg hc2]
    have h16 : TM_QUEUE_SIZE = 16 := rfl
    refine ⟨by rw [hrun], by rw [hrun]; simp only; omega,
      by rw [hrun], by rw [hrun], ?_⟩
    intro hi
    rw [hrun, hi, List.set_set]
  · decide

/-- Witness for C6 at a full queue whose tail slot (0, HIGH) differs from
the first lower-priority slot (1, Normal): the universal part of the C6
theorem applies with every hypothesis discharged concretely. -/
theorem C6_preemption_tail_insert_witness :
    (c6_mixed.queue_count = TM_QUEUE_SIZE ∧
     TM_PRIORITY_HIGH ≤ TM_PRIORITY_HIGH ∧
     c6_mixed.queue.findIdx?
       (fun e => e.valid ∧ e.priority < TM_PRIORITY_HIGH) = some 1) ∧
    ((telemetry_queue_packet c6_mixed (mk_tm_dummy 100) TM_PRIORITY_HIGH).1 =
       .ok ∧
     (telemetry_queue_packet c6_mixed (mk_tm_dummy 100)
       TM_PRIORITY_HIGH).2.queue_count = TM_QUEUE_SIZE ∧
     (telemetry_queue_packet c6_mixed (mk_tm_dummy 100) TM_PRIORITY_HIGH).2.queue =
       (c6_mixed.queue.set 1
         { c6_mixed.queue.getD 1 tm_queue_zero_entry with valid := false }).set
         c6_mixed.queue_tail ⟨mk_tm_dummy 100, TM_PRIORITY_HIGH, true⟩ ∧
     (telemetry_queue_packet c6_mixed (mk_tm_dummy 100)
       TM_PRIORITY_HIGH).2.queue_tail = (c6_mixed.queue_tail + 1) % TM_QUEUE_SIZE ∧
     (1 = c6_mixed.queue_tail →
       (telemetry_queue_packet c6_mixed (mk_tm_dummy 100) TM_PRIORITY_HIGH).2.queue
         = c6_mixed.queue.set 1 ⟨mk_tm_dummy 100, TM_PRIORITY_HIGH, true⟩)) :=
  ⟨⟨by decide, by decide, by decide⟩,
   C6_preemption_tail_insert.1 c6_mixed (mk_tm_dummy 100) TM_PRIORITY_HIGH 1
     (by decide) (by decide) (by decide)⟩

/-- Claim C9: `ccsds_parse_tc` accepts an 18-byte buffer whose length
field implies 20 bytes — it checks the derived data length only against
the struct capacity, never against the supplied length, so it reads past
the end of the buffer (the parsed CRC comes from the two bytes beyond the
18 supplied ones, i.e. 0 in the model). -/
theorem C9_parse_tc_overread :
    c9_raw.length = 18 ∧
    (ccsds_parse_tc c9_raw).1 = .ok ∧
    (ccsds_parse_tc c9_raw).2.primary.packet_length = 13 ∧
    c9_raw.length < parse_tc_bytes_needed
      (ccsds_parse_tc c9_raw).2.primary.packet_length ∧
    (ccsds_parse_tc c9_raw).2.crc = 0 := by
  decide

/-- Claim C2: the pipeline build → set_data → finalize → serialize
produces bytes from which the spec's inverse reader recovers every
primary field, every secondary field, the data, and the stored CRC — but
the CRC-16-CCITT computed over the serialized bytes preceding the CRC
field does NOT match the stored CRC, because `ccsds_finalize_tm` computed
it over the little-endian `memcpy` image of the headers instead of the
big-endian wire bytes. -/
theorem C2_roundtrip_crc_mismatch :
    (ccsds_parse_tm_spec c2_bytes).primary = c2_pkt.primary ∧
    (ccsds_parse_tm_spec c2_bytes).secondary = c2_pkt.secondary ∧
    (ccsds_parse_tm_spec c2_bytes).data = c2_pkt.data ∧
    (ccsds_parse_tm_spec c2_bytes).crc = c2_pkt.crc ∧
    c2_bytes.length = ccsds_tm_get_total_length c2_pkt ∧
    ccsds_calc_crc (c2_bytes.take (c2_bytes.length - 2)) ≠ c2_pkt.crc := by
  decide

/-- Every invocation logged by the slot loop starting at absolute index
`idx` carries a slot number at least `idx`. -/
theorem sched_step_jobs_slot_ge (now : Nat) :
    ∀ (jobs : List SchedJob) (idx : Nat) (e : SchedInvocation),
      e ∈ (sched_step_jobs now idx jobs).2 → idx ≤ e.slot := by
  intro jobs
  induction jobs with
  | nil => intro idx e he; simp [sched_step_jobs] at he
  | cons j rest ih =>
    intro idx e he
    simp only [sched_step_jobs] at he
    by_cases hc : j.used ∧ j.next_run_ms ≤ now
    · simp [hc] at he
      rcases he with he | he
      · simp [he]
      · exact Nat.le_of_succ_le (ih (idx + 1) e he)
    · simp [hc] at he
      exact Nat.le_of_succ_le (ih (idx + 1) e he)

/-- The slot loop logs, for slot `idx + i`, exactly the invocation the
`i`-th job produces: one entry when the job is used and due, none
otherwise. -/
theorem sched_step_jobs_filter (now : Nat) :
    ∀ (jobs : List SchedJob) (idx i : Nat),
      sched_invocations_of (idx + i) (sched_step_jobs now idx jobs).2 =
        (match jobs.get? i with
         | some j =>
           if j.used ∧ j.next_run_ms ≤ now then
             [⟨idx + i, j.fn, now, j.next_run_ms⟩]
           else []
         | none => []) := by
  intro jobs
  induction jobs with
  | nil => intro idx i; simp [sched_step_jobs, sched_invocations_of]
  | cons j rest ih =>
    intro idx i
    match i with
    | 0 =>
      have hge := sched_step_jobs_slot_ge now rest (idx + 1)
      have hnone : sched_invocations_of idx (sched_step_jobs now (idx + 1) rest).2
          = [] := by
        rw [sched_invocations_of, List.filter_eq_nil_iff]
        intro e he
        have := hge e he
        simp only [decide_eq_true_eq]
        omega
      by_cases hc : j.used ∧ j.next_run_ms ≤ now
      · simp [sched_step_jobs, hc, sched_invocations_of] at hnone ⊢
        exact hnone
      · simp [sched_step_jobs, hc, sched_invocations_of] at hnone ⊢
        exact hnone
    | Nat.succ i' =>
      have := ih (idx + 1) i'
      by_cases hc : j.used ∧ j.next_run_ms ≤ now
      · simp only [sched_step_jobs, hc, and_self, if_true, sched_invocations_of,
          List.filter_cons] at this ⊢
        have hne : ¬ (idx = idx + (i' + 1)) := by omega
        simp only [decide_eq_false hne]
        rw [show idx + (i' + 1) = (idx + 1) + i' by omega]
        simpa [sched_invocations_of] using this
      · simp only [sched_step_jobs, hc, if_false, sched_invocations_of] at this ⊢
        rw [show idx + (i' + 1) = (idx + 1) + i' by omega]
        simpa [sched_invocations_of] using this

/-- The slot loop updates each job independently: the `i`-th job gets
`next_run_ms += period_ms` exactly when it is used and due. -/
theorem sched_step_jobs_get (now : Nat) :
    ∀ (jobs : List SchedJob) (idx i : Nat),
      (sched_step_jobs now idx jobs).1.get? i =
        (jobs.get? i).map (fun j =>
          if j.used ∧ j.next_run_ms ≤ now then
            { j with next_run_ms := j.next_run_ms + j.period_ms }
          else j) := by
  intro jobs
  induction jobs with
  | nil => intro idx i; simp [sched_step_jobs]
  | cons j rest ih =>
    intro idx i
    match i with
    | 0 =>
      by_cases hc : j.used ∧ j.next_run_ms ≤ now
      · simp [sched_step_jobs, hc]
      · simp [sched_step_jobs, hc]
    | Nat.succ i' =>
      by_cases hc : j.used ∧ j.next_run_ms ≤ now
      · simpa [sched_step_jobs, hc] using ih (idx + 1) i'
      · simpa [sched_step_jobs, hc] using ih (idx + 1) i'

/-- Unfolding of `scheduler_step`. -/
theorem scheduler_step_def (s : SchedState) (e : Nat) :
    scheduler_step s e =
      ({ now_ms := s.now_ms + e, jobs := (sched_step_jobs (s.now_ms + e) 0 s.jobs).1 },
       (sched_step_jobs (s.now_ms + e) 0 s.jobs).2) := rfl

/-- Unfolding of `scheduler_run` on a step. -/
theorem scheduler_run_cons (s : SchedState) (e : Nat) (rest : List Nat) :
    scheduler_run s (e :: rest) =
      ((scheduler_run (scheduler_step s e).1 rest).1,
       (scheduler_step s e).2 ++ (scheduler_run (scheduler_step s e).1 rest).2) := rfl

/-- Closed form of a run, per slot: a used job at slot `i` with deadline
`d` and period `p` is invoked some `m` times, with deadlines exactly
`d, d + p, ..., d + (m-1)p`, and ends with `next_run_ms = d + m * p`. -/
theorem scheduler_run_slot_log :
    ∀ (steps : List Nat) (s : SchedState) (i : Nat) (j : SchedJob),
      s.jobs.get? i = some j → j.used = true →
      ∃ m, (scheduler_run s steps).1.jobs.get? i =
            some { j with next_run_ms := j.next_run_ms + m * j.period_ms } ∧
        (sched_invocations_of i (scheduler_run s steps).2).map
            (fun e => (e.fn, e.deadline_ms)) =
          (List.range m).map (fun k => (j.fn, j.next_run_ms + k * j.period_ms)) := by
  intro steps
  induction steps with
  | nil =>
    intro s i j hj _hu
    refine ⟨0, by simpa using hj, by simp [scheduler_run, sched_invocations_of]⟩
  | cons e rest ih =>
    intro s i j hj hu
    rw [scheduler_run_cons, scheduler_step_def]
    have hstep_get := sched_step_jobs_get (s.now_ms + e) s.jobs 0 i
    have hstep_log := sched_step_jobs_filter (s.now_ms + e) s.jobs 0 i
    rw [Nat.zero_add] at hstep_log
    rw [hj] at hstep_get hstep_log
    by_cases hc : j.next_run_ms ≤ s.now_ms + e
    · -- the job fires in this step
      have hcond : j.used = true ∧ j.next_run_ms ≤ s.now_ms + e := ⟨hu, hc⟩
      have hget : (sched_step_jobs (s.now_ms + e) 0 s.jobs).1.get? i =
          some { j with next_run_ms := j.next_run_ms + j.period_ms } := by
        rw [hstep_get]; simp [hcond, hu]
      have hlog : sched_invocations_of i (sched_step_jobs (s.now_ms + e) 0 s.jobs).2
          = [⟨i, j.fn, s.now_ms + e, j.next_run_ms⟩] := by
        rw [hstep_log]; simp [hcond]
      obtain ⟨m', hm1, hm2⟩ :=
        ih ⟨s.now_ms + e, (sched_step_jobs (s.now_ms + e) 0 s.jobs).1⟩ i
          { j with next_run_ms := j.next_run_ms + j.period_ms } hget hu
      refine ⟨m' + 1, ?_, ?_⟩
      · rw [hm1]
        simp only [SchedJob.mk.injEq, Option.some.injEq, true_and, and_true]
        ring
      · rw [sched_invocations_of, List.filter_append,
          ← sched_invocations_of, ← sched_invocations_of, hlog,
          List.map_append, hm2, List.range_succ_eq_map]
        simp only [List.map_cons, List.map_map, List.map_nil,
          List.singleton_append, Nat.zero_mul, Nat.add_zero, List.map_cons]
        refine congrArg₂ _ rfl ?_
        apply List.map_congr_left
        intro k _
        simp only [Function.comp_apply, Prod.mk.injEq, true_and,
          Nat.succ_eq_add_one]
        ring
    · -- the job is not yet due
      have hcond : ¬ (j.used = true ∧ j.next_run_ms ≤ s.now_ms + e) := by
        intro h; exact hc h.2
      have hget : (sched_step_jobs (s.now_ms + e) 0 s.jobs).1.get? i = some j := by
        rw [hstep_get]; simp [hcond]
      have hlog : sched_invocations_of i (sched_step_jobs (s.now_ms + e) 0 s.jobs).2
          = [] := by
        rw [hstep_log]; simp [hcond]
      obtain ⟨m, hm1, hm2⟩ :=
        ih ⟨s.now_ms + e, (sched_step_jobs (s.now_ms + e) 0 s.jobs).1⟩ i j hget hu
      refine ⟨m, hm1, ?_⟩
      rw [sched_invocations_of, List.filter_append,
        ← sched_invocations_of, ← sched_invocations_of, hlog]
      simpa using hm2

/-- Claim C7, counterexample: a job with period 10 registered at time 0,
stepped by 20 and then by 1, runs at now = 20 and again at now = 21 — the
clock difference between the two consecutive invocations is 1, not the
period 10 (after an overshoot the catch-up invocation comes early). -/
theorem C7_counterexample :
    (c7_sched.jobs.getD 0 ⟨0, 0, 0, false⟩).period_ms = 10 ∧
    (c7_sched.jobs.getD 0 ⟨0, 0, 0, false⟩).used = true ∧
    sched_invocations_of 0 (scheduler_run c7_sched [20, 1]).2 =
      [⟨0, 7, 20, 10⟩, ⟨0, 7, 21, 20⟩] ∧
    ((sched_invocations_of 0 (scheduler_run c7_sched [20, 1]).2).getD 1
        ⟨0, 0, 0, 0⟩).at_ms -
      ((sched_invocations_of 0 (scheduler_run c7_sched [20, 1]).2).getD 0
        ⟨0, 0, 0, 0⟩).at_ms = 1 := by
  decide

/-- Claim C7, amended: for every registered job with period p and every
sequence of `scheduler_step` calls, the deadlines (`next_run_ms` at the
moment of the call) of consecutive invocations of that job differ by
exactly p; consequently the difference in `now_ms` between consecutive
invocations equals p whenever both invocations are punctual (the clock
equals the deadline).  When a step overshoots a deadline the `now_ms` gap
can be smaller than p. -/
theorem C7_consecutive_deadlines (s : SchedState) (steps : List Nat) (i : Nat)
    (j : SchedJob) (hj : s.jobs.get? i = some j) (hu : j.used = true)
    (k : Nat) (e1 e2 : SchedInvocation)
    (h1 : (sched_invocations_of i (scheduler_run s steps).2).get? k = some e1)
    (h2 : (sched_invocations_of i (scheduler_run s steps).2).get? (k + 1) = some e2) :
    e2.deadline_ms = e1.deadline_ms + j.period_ms ∧
    (e1.at_ms = e1.deadline_ms → e2.at_ms = e2.deadline_ms →
      e2.at_ms = e1.at_ms + j.period_ms) := by
  obtain ⟨m, _, hmap⟩ := scheduler_run_slot_log steps s i j hj hu
  have hlen : (sched_invocations_of i (scheduler_run s steps).2).length = m := by
    have := congrArg List.length hmap
    simpa using this
  have hk2 : k + 1 < m := by
    obtain ⟨hlt, -⟩ := List.get?_eq_some.mp h2
    omega
  have hk1 : k < m := by omega
  have hd1 : e1.deadline_ms = j.next_run_ms + k * j.period_ms := by
    have hmk := congrArg (fun l => l.get? k) hmap
    simp only [List.get?_map, h1, Option.map_some', List.get?_range hk1] at hmk
    exact congrArg Prod.snd (Option.some.inj hmk)
  have hd2 : e2.deadline_ms = j.next_run_ms + (k + 1) * j.period_ms := by
    have hmk := congrArg (fun l => l.get? (k + 1)) hmap
    simp only [List.get?_map, h2, Option.map_some', List.get?_range hk2] at hmk
    exact congrArg Prod.snd (Option.some.inj hmk)
  constructor
  · rw [hd1, hd2, Nat.add_mul, Nat.one_mul]
    omega
  · intro ha1 ha2
    rw [ha1, ha2, hd1, hd2, Nat.add_mul, Nat.one_mul]
    omega

/-- Witness for C7: the period-10 job of `c7_sched` stepped twice by
exactly 10 ms runs punctually at 10 and 20; consecutive deadlines differ
by 10 and so do the punctual invocation times. -/
theorem C7_consecutive_deadlines_witness :
    (c7_sched.jobs.get? 0 = some ⟨7, 10, 10, true⟩ ∧
     (sched_invocations_of 0 (scheduler_run c7_sched [10, 10]).2).get? 0 =
       some ⟨0, 7, 10, 10⟩ ∧
     (sched_invocations_of 0 (scheduler_run c7_sched [10, 10]).2).get? 1 =
       some ⟨0, 7, 20, 20⟩) ∧
    ((⟨0, 7, 20, 20⟩ : SchedInvocation).deadline_ms =
       (⟨0, 7, 10, 10⟩ : SchedInvocation).deadline_ms + 10 ∧
     ((⟨0, 7, 10, 10⟩ : SchedInvocation).at_ms =
        (⟨0, 7, 10, 10⟩ : SchedInvocation).deadline_ms →
      (⟨0, 7, 20, 20⟩ : SchedInvocation).at_ms =
        (⟨0, 7, 20, 20⟩ : SchedInvocation).deadline_ms →
      (⟨0, 7, 20, 20⟩ : SchedInvocation).at_ms =
        (⟨0, 7, 10, 10⟩ : SchedInvocation).at_ms + 10)) :=
  ⟨⟨by decide, by decide, by decide⟩,
   C7_consecutive_deadlines c7_sched [10, 10] 0 ⟨7, 10, 10, true⟩
     (by decide) rfl 0 ⟨0, 7, 10, 10⟩ ⟨0, 7, 20, 20⟩ (by decide) (by decide)⟩

end OpenFSW
